import Mathlib

/-!
# Store-3D Blender Bridge — verification of the addon's core logic

Shallow embedding of `scripts/blender_bridge_addon.py`.  Network and
filesystem effects are modelled by an environment record that fixes the
outcome of each call site (each one is executed at most once per run),
and runs produce an explicit event trace.  JSON payloads decoded by
`json.loads` are modelled by the inductive `Json` below.
-/

namespace Store3D

/-- A JSON value as produced by `json.loads`.  Objects are association
lists; the addon's payloads carry no duplicate keys (and `json.loads`
keeps a single binding per key), so lookup takes the first match. -/
inductive Json where
  | null
  | bool (b : Bool)
  | num (n : Int)
  | str (s : String)
  | arr (elems : List Json)
  | obj (fields : List (String × Json))

/-- `payload.get(key, default)` on a decoded JSON value that is known to be
a `dict`; on a non-object it returns the default (the fallible attribute
access on arbitrary values is modelled separately by `dictGet`). -/
def Json.getD (j : Json) (key : String) (dflt : Json) : Json :=
  match j with
  | .obj fields =>
    match fields.lookup key with
    | some v => v
    | none => dflt
  | _ => dflt

/-- Whether the value is a JSON array (`isinstance(x, list)`). -/
def Json.isArr : Json → Bool
  | .arr _ => true
  | _ => false

/-- Whether the value is a JSON object (`isinstance(x, dict)`). -/
def Json.isObj : Json → Bool
  | .obj _ => true
  | _ => false

/-- `job.get(key, default)` on an arbitrary decoded value: Python raises
`AttributeError` when the receiver is not a `dict`.  The error text here
is a stand-in for the interpreter's message; only the fact that an
exception is raised matters to the control flow below. -/
def dictGet (j : Json) (key : String) (dflt : Json) : Except String Json :=
  match j with
  | .obj _ => .ok (j.getD key dflt)
  | _ => .error "AttributeError: object has no attribute get"

/-- Python `str()` applied to a value decoded from JSON.  Exact on the
scalar shapes (`str`, `None`, booleans, integers); containers are
rendered as bracketed placeholders — every use in the addon either
receives a scalar or only cares whether the result is empty after
stripping, and a container never renders to an empty or whitespace-only
string in Python either. -/
def pyStr : Json → String
  | .null => "None"
  | .bool true => "True"
  | .bool false => "False"
  | .num n => toString n
  | .str s => s
  | .arr [] => "[]"
  | .arr _ => "[...]"
  | .obj [] => "\x7b\x7d"
  | .obj _ => "\x7b...\x7d"

/-- The whitespace stripped by Python `str.strip()` (space, tab,
newline, carriage return, vertical tab, form feed). -/
def pyWs (c : Char) : Bool :=
  c = ' ' || c = '\t' || c = '\n' || c = '\r' || c = Char.ofNat 11 || c = Char.ofNat 12

/-- Python `str.strip()` on a character list (both ends). -/
def pyStripL (cs : List Char) : List Char :=
  ((cs.dropWhile pyWs).reverse.dropWhile pyWs).reverse

/-- Python `str.strip()`.  (Implemented over `List Char` so that it
evaluates by kernel reduction.) -/
def pyStrip (s : String) : String := String.mk (pyStripL s.toList)

/-- Python `str.lower()` (the addon lowercases only ASCII format names
and extensions, where `Char.toLower` agrees). -/
def pyLower (s : String) : String := String.mk (s.toList.map Char.toLower)

/-- Python `str.upper()` on the ASCII pair codes the addon handles. -/
def pyUpper (s : String) : String := String.mk (s.toList.map Char.toUpper)

/-- Python slicing `s[:n]`: the first `n` code points. -/
def pyTake (s : String) (n : Nat) : String := String.mk (s.toList.take n)

/-- A character allowed inside a URL scheme name. -/
def isSchemeChar (c : Char) : Bool :=
  c.isAlphanum || c = '+' || c = '-' || c = '.'

/-- Drop a leading `scheme:` when the prefix before the first colon is a
syntactically valid scheme (a letter followed by letters, digits, `+`,
`-`, `.`). -/
def stripScheme (cs : List Char) : List Char :=
  let pre := cs.takeWhile (· ≠ ':')
  if pre.length < cs.length
      ∧ pre ≠ []
      ∧ (pre.headD 'a').isAlpha
      ∧ pre.all isSchemeChar then
    cs.drop (pre.length + 1)
  else cs

/-- Drop a leading `//netloc`, keeping the path from the next `/` on. -/
def stripNetloc (cs : List Char) : List Char :=
  match cs with
  | '/' :: '/' :: rest => rest.drop (rest.takeWhile (· ≠ '/')).length
  | _ => cs

/-- The path component of `urllib.parse.urlparse(url)`: the fragment
(after the first `#`) and the query (after the first `?`) are removed,
then a leading `scheme:` and a `//netloc` are removed.  Parameter
splitting at `;` is not modelled (no addon URL carries one). -/
def urlPathOf (url : String) : String :=
  String.mk (stripNetloc (stripScheme
    ((url.toList.takeWhile (· ≠ '#')).takeWhile (· ≠ '?'))))

/-- `os.path.splitext(p)[1]` (posix separator, as in the addon's URLs
and temp paths): the extension starts at the last dot of the final path
component, unless every character before that dot in the component is
itself a dot. -/
def splitextExt (p : String) : String :=
  let base := (p.toList.reverse.takeWhile (· ≠ '/')).reverse
  match base.reverse.findIdx? (· = '.') with
  | none => ""
  | some j =>
    let i := base.length - 1 - j
    if (base.take i).any (· ≠ '.') then String.mk (base.drop i) else ""

/-- `_infer_suffix(job)` (lines 122–133): trimmed, lower-cased `format`
hint first; else the lower-cased extension of the download URL's path;
else `".glb"`.  (Inside the addon the job is always a `dict` by the time
this runs, so plain `getD` matches `job.get`.) -/
def infer_suffix (job : Json) : String :=
  let fmt := pyLower (pyStrip (pyStr (job.getD "format" (Json.str ""))))
  if fmt = "glb" ∨ fmt = "gltf" ∨ fmt = "obj" ∨ fmt = "stl" then
    "." ++ fmt
  else
    let download_url := pyStrip (pyStr (job.getD "downloadUrl" (Json.str "")))
    let path := urlPathOf download_url
    let ext := pyLower (splitextExt path)
    if ext = ".glb" ∨ ext = ".gltf" ∨ ext = ".obj" ∨ ext = ".stl" then ext
    else ".glb"

/-- `_json_from_text` followed by the dict check of `_http_json`
(lines 83–96): a raised network/HTTP error passes through, a payload
that is not a JSON object becomes `"Server returned non-JSON
response."`.  The environment supplies the decoded payload (or the
message of the raised error) for one call site. -/
def httpJsonResult (r : Except String Json) : Except String Json :=
  match r with
  | .error e => .error e
  | .ok j =>
    match j with
    | .obj _ => .ok j
    | _ => .error "Server returned non-JSON response."

/-- `jobs = data.get("jobs", []) if isinstance(data, dict) else []`
followed by the coercion of a non-list value to `[]` (the fetch
operator does this with an explicit `if not isinstance(jobs, list)`,
the import operator by bundling it into its emptiness test). -/
def queuedJobs (data : Json) : List Json :=
  match data with
  | .obj _ =>
    match data.getD "jobs" (Json.arr []) with
    | .arr xs => xs
    | _ => []
  | _ => []

/-- `_pair_code` events: the single PUT to `/api/dcc/blender/pair`. -/
inductive PairEv where
  | pairRequest (code : String)
deriving DecidableEq, Repr

/-- `_pair_code(context, code)` (lines 144–158): normalize the code
(strip + upper), reject an empty one before any request, then exchange
it; the token is `str(payload.get("token", "")).strip()` and an empty
result is an error.  `resp` is the decoded response of the one request
(the payload returned by `_http_json` is always a dict, so the
`isinstance(payload, dict)` guard in line 155 is the `httpJsonResult`
object check). -/
def pair_code (code : String) (resp : Except String Json) :
    Except String String × List PairEv :=
  let normalized_code := pyUpper (pyStrip code)
  if normalized_code = "" then
    (.error "Set Pair code in addon settings.", [])
  else
    match httpJsonResult resp with
    | .error e => (.error e, [.pairRequest normalized_code])
    | .ok payload =>
      let token := pyStrip (pyStr (payload.getD "token" (Json.str "")))
      if token = "" then
        (.error "Pairing response does not contain token.", [.pairRequest normalized_code])
      else
        (.ok token, [.pairRequest normalized_code])

/-- Outcome of `STORE3D_BRIDGE_OT_FetchJobs.execute` (lines 267–280):
the operator's return status, the `self.report` message, and the job
count written to `store3d_bridge_last_count` (when the fetch
succeeded). -/
structure FetchOutcome where
  status : String
  reported : String
  count : Option Nat
deriving DecidableEq, Repr

/-- `STORE3D_BRIDGE_OT_FetchJobs.execute`: one listing request whose
decoded payload (or raised error) is `resp`. -/
def fetch_jobs_execute (resp : Except String Json) : FetchOutcome :=
  match httpJsonResult resp with
  | .error e => ⟨"CANCELLED", e, none⟩
  | .ok data =>
    let jobs := queuedJobs data
    ⟨"FINISHED", "Fetched " ++ toString jobs.length ++ " queued jobs.", some jobs.length⟩

/-- Environment of one `STORE3D_BRIDGE_OT_ImportLatest.execute` run:
the outcome of each network/filesystem call site (each is reached at
most once).  `fetchBytes` is the `urlopen` + `read` part of
`_download_file`; `writeTemp` is the `open`/`write` into the temp file
created by `mkstemp` right after it. -/
structure BridgeEnv where
  list1 : Except String Json
  ackPicked : Except String Unit
  fetchBytes : Except String Unit
  writeTemp : Except String Unit
  importRes : Except String Nat
  ackImported : Except String Unit
  list2 : Except String Json
  ackError : Except String Unit
  deleteOk : Bool

/-- Observable events of one import run, in order. -/
inductive Ev where
  | listReq
  | ackReq (jobId status message : String)
  | downloadReq (url suffix : String)
  | importReq
  | reportInfo (msg : String)
  | reportError (msg : String)
  | removeTemp (ok : Bool)
  | outcome (status : String)
deriving DecidableEq, Repr

/-- How the `try:` body of `ImportLatest.execute` ended. -/
inductive BodyOut where
  | noJobs
  | ok (jobId : String) (count : Nat)
  | failed (msg : String)
deriving DecidableEq, Repr

/-- Result of the `try:` body: its end, its events, whether `mkstemp`
ran (the temp file exists on disk), and whether `_download_file`
returned (so `temp_path` was assigned in `execute`). -/
structure BodyRes where
  out : BodyOut
  events : List Ev
  tempCreated : Bool
  tempAssigned : Bool
deriving DecidableEq, Repr

/-- The `try:` body of `ImportLatest.execute` (lines 316–343): list
queued jobs, take the first, validate `jobId`/`downloadUrl`, ack
`picked`, download (mkstemp + write), import, regroup, ack `imported`,
report.  Any raised error becomes `BodyOut.failed`. -/
def importBody (env : BridgeEnv) : BodyRes :=
  match httpJsonResult env.list1 with
  | .error e => ⟨.failed e, [.listReq], false, false⟩
  | .ok data =>
    match queuedJobs data with
    | [] => ⟨.noJobs, [.listReq, .reportInfo "No queued jobs."], false, false⟩
    | job :: _ =>
      match dictGet job "jobId" (Json.str "") with
      | .error e => ⟨.failed e, [.listReq], false, false⟩
      | .ok vId =>
        let job_id := pyStrip (pyStr vId)
        let download_url := pyStrip (pyStr (job.getD "downloadUrl" (Json.str "")))
        if job_id = "" ∨ download_url = "" then
          ⟨.failed "Invalid job payload: jobId/downloadUrl is missing.", [.listReq], false, false⟩
        else
          let ev1 := [Ev.listReq, Ev.ackReq job_id "picked" "Picked by Blender addon."]
          match env.ackPicked with
          | .error e => ⟨.failed e, ev1, false, false⟩
          | .ok _ =>
            let suffix := infer_suffix job
            let ev2 := ev1 ++ [Ev.downloadReq download_url suffix]
            match env.fetchBytes with
            | .error e => ⟨.failed e, ev2, false, false⟩
            | .ok _ =>
              match env.writeTemp with
              | .error e => ⟨.failed e, ev2, true, false⟩
              | .ok _ =>
                let ev3 := ev2 ++ [Ev.importReq]
                match env.importRes with
                | .error e => ⟨.failed e, ev3, true, true⟩
                | .ok count =>
                  let ev4 := ev3 ++ [Ev.ackReq job_id "imported" "Imported to Blender."]
                  match env.ackImported with
                  | .error e => ⟨.failed e, ev4, true, true⟩
                  | .ok _ =>
                    ⟨.ok job_id count,
                      ev4 ++ [Ev.reportInfo ("Imported job " ++ pyTake job_id 10
                        ++ "... Objects: " ++ toString count)],
                      true, true⟩

/-- The `except Exception` recovery of `ImportLatest.execute` (lines
344–357): re-poll the queued jobs, and if the fresh list has a first
job with a non-empty `jobId`, attempt an `error` ack with the message
truncated to 220 characters.  Every failure inside (including the
`AttributeError` of `.get` on a non-dict first job and the ack itself)
is swallowed. -/
def recovery (env : BridgeEnv) (message : String) : List Ev :=
  match httpJsonResult env.list2 with
  | .error _ => [Ev.listReq]
  | .ok data =>
    match queuedJobs data with
    | [] => [Ev.listReq]
    | job :: _ =>
      match dictGet job "jobId" (Json.str "") with
      | .error _ => [Ev.listReq]
      | .ok vId =>
        let job_id := pyStrip (pyStr vId)
        if job_id = "" then [Ev.listReq]
        else
          match env.ackError with
          | .ok _ => [Ev.listReq, Ev.ackReq job_id "error" (pyTake message 220)]
          | .error _ => [Ev.listReq, Ev.ackReq job_id "error" (pyTake message 220)]

/-- The `finally:` block (lines 360–365): when `temp_path` was assigned
(`_download_file` returned, so the file exists), attempt `os.remove`;
its failure is swallowed. -/
def cleanupEvents (b : BodyRes) (env : BridgeEnv) : List Ev :=
  if b.tempAssigned then [Ev.removeTemp env.deleteOk] else []

/-- Whole-run result of `ImportLatest.execute`. -/
structure RunRes where
  status : String
  events : List Ev
  tempCreated : Bool
  tempAssigned : Bool
deriving DecidableEq, Repr

/-- `STORE3D_BRIDGE_OT_ImportLatest.execute` (lines 309–365).  The
closing `Ev.outcome` event marks the moment the return value reaches
the caller — the `finally:` cleanup runs before it. -/
def execute (env : BridgeEnv) : RunRes :=
  let b := importBody env
  match b.out with
  | .noJobs =>
    ⟨"CANCELLED", b.events ++ cleanupEvents b env ++ [Ev.outcome "CANCELLED"],
      b.tempCreated, b.tempAssigned⟩
  | .ok _ _ =>
    ⟨"FINISHED", b.events ++ cleanupEvents b env ++ [Ev.outcome "FINISHED"],
      b.tempCreated, b.tempAssigned⟩
  | .failed msg =>
    ⟨"CANCELLED",
      b.events ++ recovery env msg ++ [Ev.reportError msg]
        ++ cleanupEvents b env ++ [Ev.outcome "CANCELLED"],
      b.tempCreated, b.tempAssigned⟩

/-- The importer operator family chosen by `_import_model_file`
(lines 161–178); the hasattr fallbacks pick the same family. -/
inductive Importer where
  | gltfImporter
  | objImporter
  | stlImporter
deriving DecidableEq, Repr

/-- The extension dispatch of `_import_model_file` (lines 161–178):
`ext = os.path.splitext(path)[1].lower()`, then glb/gltf, obj, stl, or
the unsupported-extension error. -/
def importerFor (path : String) : Except String Importer :=
  let ext := pyLower (splitextExt path)
  if ext = ".glb" ∨ ext = ".gltf" then .ok .gltfImporter
  else if ext = ".obj" then .ok .objImporter
  else if ext = ".stl" then .ok .stlImporter
  else .error ("Unsupported file extension: " ++ ext)

/-- The counting part of `_import_model_file` (lines 163, 180–181):
`before` and `after` are the names of `bpy.data.objects` before and
after the importer ran (Blender object names are unique), and the
function returns the objects counted as newly imported. -/
def importedObjects (before after : List String) : List String :=
  after.filter (fun n => !(before.contains n))

/-- The relevant slice of `bpy.data`: the scene's objects (by name) and
the named collections with the objects linked to each. -/
structure BlendData where
  objects : List String
  collections : List (String × List String)

/-- Replace (or add) the binding of one collection. -/
def setColl (cs : List (String × List String)) (k : String) (v : List String) :
    List (String × List String) :=
  match cs with
  | [] => [(k, v)]
  | (k2, v2) :: rest => if k2 = k then (k, v) :: rest else (k2, v2) :: setColl rest k v

/-- `_move_to_collection(scene, objects, collection_name)` (lines
184–196): no-op on an empty name or object list; otherwise get or
create the collection and link each object that is not already linked
(`obj.users_collection` contains the collection exactly when the
collection's object list contains `obj`, since collection names are
unique in `bpy.data.collections`).  Scene objects are never touched:
`collection.objects.link` links an existing object. -/
def move_to_collection (data : BlendData) (objects : List String)
    (collection_name : String) : BlendData :=
  if collection_name = "" ∨ objects = [] then data
  else
    let current := ((data.collections.lookup collection_name).getD [])
    let updated := objects.foldl
      (fun acc obj => if acc.contains obj then acc else acc ++ [obj]) current
    ⟨data.objects, setColl data.collections collection_name updated⟩

/-- `BridgeEnv` with the `os.remove` outcome replaced. -/
def withDeleteOk (env : BridgeEnv) (b : Bool) : BridgeEnv :=
  ⟨env.list1, env.ackPicked, env.fetchBytes, env.writeTemp, env.importRes,
    env.ackImported, env.list2, env.ackError, b⟩

/-- `BridgeEnv` with the recovery-ack outcome replaced. -/
def withAckError (env : BridgeEnv) (r : Except String Unit) : BridgeEnv :=
  ⟨env.list1, env.ackPicked, env.fetchBytes, env.writeTemp, env.importRes,
    env.ackImported, env.list2, r, env.deleteOk⟩

/-- Whether an event is the `os.remove` attempt on the temp file. -/
def Ev.isRemove : Ev → Bool
  | .removeTemp _ => true
  | _ => false

/-- Number of `os.remove` attempts in a trace. -/
def removesCount (evs : List Ev) : Nat := (evs.filter Ev.isRemove).length

/-- A queued job as the server returns it. -/
def jobJ1 : Json :=
  Json.obj [("jobId", Json.str "J1"), ("downloadUrl", Json.str "http://h/a.glb")]

/-- A different queued job, enqueued while the run was in flight. -/
def jobJ2 : Json :=
  Json.obj [("jobId", Json.str "J2"), ("downloadUrl", Json.str "http://h/b.glb")]

/-- A run whose import step raises `"boom"` after `J1` was picked, and
whose recovery re-poll returns `J2` first with `J1` still queued. -/
def envRepoll : BridgeEnv :=
  ⟨.ok (Json.obj [("jobs", Json.arr [jobJ1])]), .ok (), .ok (), .ok (),
    .error "boom", .ok (),
    .ok (Json.obj [("jobs", Json.arr [jobJ2, jobJ1])]), .ok (), true⟩

/-- A run where the payload fetch succeeds, `mkstemp` creates the temp
file, and the write into it raises (e.g. the disk fills up). -/
def envLeak : BridgeEnv :=
  ⟨.ok (Json.obj [("jobs", Json.arr [jobJ1])]), .ok (), .ok (),
    .error "No space left on device", .ok 1, .ok (),
    .ok (Json.obj [("jobs", Json.arr [jobJ1])]), .ok (), true⟩

/-- A fully successful run importing two objects. -/
def envHappy : BridgeEnv :=
  ⟨.ok (Json.obj [("jobs", Json.arr [jobJ1])]), .ok (), .ok (), .ok (),
    .ok 2, .ok (), .ok (Json.obj [("jobs", Json.arr [])]), .ok (), true⟩

/-- A run whose first queued job carries a `jobId` but no
`downloadUrl`. -/
def envInvalid : BridgeEnv :=
  ⟨.ok (Json.obj [("jobs", Json.arr [Json.obj [("jobId", Json.str "J3")]])]),
    .ok (), .ok (), .ok (), .ok 1, .ok (),
    .ok (Json.obj [("jobs", Json.arr [Json.obj [("jobId", Json.str "J3")]])]),
    .ok (), true⟩

/-- The trimmed, lower-cased `format` hint of a job. -/
def fmtHint (job : Json) : String :=
  pyLower (pyStrip (pyStr (job.getD "format" (Json.str ""))))

/-- The lower-cased extension of the job's download-URL path. -/
def urlExtHint (job : Json) : String :=
  pyLower (splitextExt (urlPathOf (pyStrip (pyStr (job.getD "downloadUrl" (Json.str ""))))))

/-- Modelled from the spec: the suffix priority policy — (1) a format
hint in the known set wins, (2) else a known URL-path extension, (3)
else the default `".glb"`. -/
def suffixPolicySpec (fmt ext : String) : String :=
  if fmt ∈ (["glb", "gltf", "obj", "stl"] : List String) then "." ++ fmt
  else if ext ∈ ([".glb", ".gltf", ".obj", ".stl"] : List String) then ext
  else ".glb"

/-- `infer_suffix` always lands in the known suffix set. -/
theorem infer_suffix_mem (job : Json) :
    infer_suffix job ∈ ([".glb", ".gltf", ".obj", ".stl"] : List String) := by
  unfold infer_suffix
  dsimp only
  split_ifs with h1 h2
  · rcases h1 with h | h | h | h <;> rw [h] <;> decide
  · rcases h2 with h | h | h | h <;> rw [h] <;> decide
  · decide

/-- C6: suffix resolution is a deterministic function of the format
hint and the download URL, with the priority policy of the spec: a
known (trimmed, lower-cased) format hint wins — in particular hint
`"stl"` beats a `.obj` URL —, else a known URL-path extension, else
`".glb"`. -/
theorem infer_suffix_priority_policy :
    (∀ fields, infer_suffix (Json.obj fields) =
        suffixPolicySpec (fmtHint (Json.obj fields)) (urlExtHint (Json.obj fields)))
    ∧ infer_suffix (Json.obj [("format", Json.str "stl"),
        ("downloadUrl", Json.str "https://h/model.obj")]) = ".stl"
    ∧ infer_suffix (Json.obj [("format", Json.str "fbx"),
        ("downloadUrl", Json.str "https://h/model.bin")]) = ".glb"
    ∧ infer_suffix (Json.obj []) = ".glb" := by
  refine ⟨fun fields => ?_, by decide, by decide, by decide⟩
  unfold infer_suffix suffixPolicySpec fmtHint urlExtHint
  simp only [List.mem_cons, List.not_mem_nil, or_false]

/-- C10: the inferred suffix is always a member of the supported set,
so an import of a temp file whose (lower-cased) extension equals the
inferred suffix never reaches the unsupported-extension branch of
`_import_model_file`. -/
theorem infer_suffix_total_and_import_supported :
    (∀ fields, infer_suffix (Json.obj fields) ∈
        ([".glb", ".gltf", ".obj", ".stl"] : List String))
    ∧ ∀ fields path, pyLower (splitextExt path) = infer_suffix (Json.obj fields) →
        ∃ imp, importerFor path = .ok imp := by
  refine ⟨fun fields => infer_suffix_mem _, fun fields path h => ?_⟩
  have hm := infer_suffix_mem (Json.obj fields)
  rw [← h] at hm
  simp only [List.mem_cons, List.not_mem_nil, or_false] at hm
  unfold importerFor
  dsimp only
  rcases hm with hm | hm | hm | hm <;> rw [hm]
  · exact ⟨.gltfImporter, rfl⟩
  · exact ⟨.gltfImporter, rfl⟩
  · exact ⟨.objImporter, rfl⟩
  · exact ⟨.stlImporter, rfl⟩

/-- Witness for C10 at a concrete job and temp path. -/
theorem infer_suffix_total_and_import_supported_witness :
    pyLower (splitextExt "/tmp/store3d_bridge_k2xa.stl") =
      infer_suffix (Json.obj [("format", Json.str "stl")])
    ∧ ∃ imp, importerFor "/tmp/store3d_bridge_k2xa.stl" = .ok imp :=
  ⟨by decide,
    infer_suffix_total_and_import_supported.2 [("format", Json.str "stl")]
      "/tmp/store3d_bridge_k2xa.stl" (by decide)⟩

/-- C9: a code that strips to empty is rejected with the configuration
error before the pairing request is sent (the event trace is empty). -/
theorem pair_code_empty_rejected_before_request (code : String)
    (resp : Except String Json) (h : pyStrip code = "") :
    pair_code code resp = (.error "Set Pair code in addon settings.", []) := by
  have hu : pyUpper (pyStrip code) = "" := by rw [h]; rfl
  unfold pair_code
  rw [hu]
  rfl

/-- Witness for C9: a whitespace-only code. -/
theorem pair_code_empty_rejected_before_request_witness :
    pyStrip " \t " = ""
    ∧ pair_code " \t " (.ok Json.null) = (.error "Set Pair code in addon settings.", []) :=
  ⟨by decide, pair_code_empty_rejected_before_request " \t " (.ok Json.null) (by decide)⟩

/-- Counterexample for C8: a response whose `token` field is the
non-empty string `" x "` does not yield exactly that string — the code
strips it to `"x"`. -/
theorem pair_token_whitespace_cex :
    (pair_code "AB" (.ok (Json.obj [("token", Json.str " x ")]))).1 = .ok "x"
    ∧ (pair_code "AB" (.ok (Json.obj [("token", Json.str " x ")]))).1 ≠ .ok " x "
    ∧ " x " ≠ "" := by
  refine ⟨rfl, fun hc => ?_, by decide⟩
  exact absurd (Except.ok.inj hc) (by decide)

/-- C8 (amended): with a valid code, a pairing response whose `token`
field is a string that is non-empty after stripping yields exactly the
stripped token (which is the raw field whenever it carries no
surrounding whitespace); a whitespace-only token field is rejected. -/
theorem pair_code_returns_trimmed_token (code : String)
    (fields : List (String × Json)) (t : String)
    (hcode : pyUpper (pyStrip code) ≠ "")
    (htok : (Json.obj fields).getD "token" (Json.str "") = Json.str t)
    (ht : pyStrip t ≠ "") :
    (pair_code code (.ok (Json.obj fields))).1 = .ok (pyStrip t) := by
  unfold pair_code
  rw [if_neg hcode]
  simp only [httpJsonResult]
  rw [htok]
  have hps : pyStr (Json.str t) = t := rfl
  rw [hps, if_neg ht]

/-- Witness for C8 (amended): a clean token comes back verbatim. -/
theorem pair_code_returns_trimmed_token_witness :
    pyUpper (pyStrip "ab") ≠ ""
    ∧ (Json.obj [("token", Json.str "tok")]).getD "token" (Json.str "") = Json.str "tok"
    ∧ pyStrip "tok" ≠ ""
    ∧ (pair_code "ab" (.ok (Json.obj [("token", Json.str "tok")]))).1 = .ok (pyStrip "tok") :=
  ⟨by decide, rfl, by decide,
    pair_code_returns_trimmed_token "ab" [("token", Json.str "tok")] "tok"
      (by decide) rfl (by decide)⟩

/-- C3: for a server response that is a JSON object whose `jobs` field
is absent or not a sequence, job listing does not raise: the fetch
operator finishes, reports and stores a count of zero, and the import
operator's listing step sees an empty job list and takes its
no-queued-jobs exit. -/
theorem fetch_jobs_lenient_on_malformed (fields : List (String × Json))
    (h : ((fields.lookup "jobs").all fun v => !v.isArr) = true) :
    fetch_jobs_execute (.ok (Json.obj fields)) = ⟨"FINISHED", "Fetched 0 queued jobs.", some 0⟩
    ∧ queuedJobs (Json.obj fields) = []
    ∧ ∀ env : BridgeEnv, env.list1 = .ok (Json.obj fields) →
        (importBody env).out = .noJobs := by
  have hq : queuedJobs (Json.obj fields) = [] := by
    unfold queuedJobs Json.getD
    cases hl : fields.lookup "jobs" with
    | none => simp [hl]
    | some v =>
      rw [hl] at h
      cases v <;> simp_all [Json.isArr, hl]
  refine ⟨?_, hq, fun env he => ?_⟩
  · unfold fetch_jobs_execute
    simp only [httpJsonResult, hq]
    rfl
  · unfold importBody
    rw [he]
    simp only [httpJsonResult, hq]

/-- Witness for C3: a `jobs` field that is a plain string. -/
theorem fetch_jobs_lenient_on_malformed_witness :
    ((([("jobs", Json.str "nope")] : List (String × Json)).lookup "jobs").all
        fun v => !v.isArr) = true
    ∧ fetch_jobs_execute (.ok (Json.obj [("jobs", Json.str "nope")])) =
        ⟨"FINISHED", "Fetched 0 queued jobs.", some 0⟩ :=
  ⟨by decide, (fetch_jobs_lenient_on_malformed [("jobs", Json.str "nope")] (by decide)).1⟩

/-- C7: the reported object count is exactly the number of scene
objects present after the import that were not present before (scene
object names are unique, hence the `Nodup` hypothesis), and routing the
imported objects into the target collection touches only collection
links, so recomputing the count afterwards gives the same number. -/
theorem import_count_exact (before after : List String) (hnd : after.Nodup)
    (data : BlendData) (name : String) (hobj : data.objects = after) :
    (importedObjects before after).length = (after.toFinset \ before.toFinset).card
    ∧ (move_to_collection data (importedObjects before after) name).objects = after
    ∧ (importedObjects before
        (move_to_collection data (importedObjects before after) name).objects).length
      = (importedObjects before after).length := by
  have hmove : (move_to_collection data (importedObjects before after) name).objects = after := by
    unfold move_to_collection
    split_ifs <;> simp [hobj]
  have hnf : (importedObjects before after).Nodup := hnd.filter _
  refine ⟨?_, hmove, by rw [hmove]⟩
  rw [← List.toFinset_card_of_nodup hnf]
  congr 1
  ext x
  have hcb : ∀ y : String, before.contains y = true ↔ y ∈ before := fun y => List.elem_iff
  simp only [importedObjects, List.mem_toFinset, List.mem_filter, Finset.mem_sdiff,
    Bool.not_eq_eq_eq_not, Bool.not_true, ← hcb, Bool.not_eq_true]

/-- Witness for C7 at a concrete scene. -/
theorem import_count_exact_witness :
    (["Cube", "M1", "M2"] : List String).Nodup
    ∧ (importedObjects ["Cube"] ["Cube", "M1", "M2"]).length =
        ((["Cube", "M1", "M2"] : List String).toFinset \ (["Cube"] : List String).toFinset).card
    ∧ (move_to_collection ⟨["Cube", "M1", "M2"], []⟩
        (importedObjects ["Cube"] ["Cube", "M1", "M2"]) "Store3D Imports").objects
      = ["Cube", "M1", "M2"] :=
  ⟨by decide,
    (import_count_exact ["Cube"] ["Cube", "M1", "M2"] (by decide)
      ⟨["Cube", "M1", "M2"], []⟩ "Store3D Imports" rfl).1,
    (import_count_exact ["Cube"] ["Cube", "M1", "M2"] (by decide)
      ⟨["Cube", "M1", "M2"], []⟩ "Store3D Imports" rfl).2.1⟩

/-- The try-body never emits an `error`-status acknowledgement: its
acks are `picked` and `imported` only. -/
theorem body_no_error_ack (env : BridgeEnv) (jid m : String) :
    Ev.ackReq jid "error" m ∉ (importBody env).events := by
  unfold importBody
  repeat' split
  all_goals try dsimp only
  repeat' split
  all_goals simp_all

/-- The try-body never attempts the temp-file removal. -/
theorem body_removes (env : BridgeEnv) :
    removesCount (importBody env).events = 0 := by
  unfold importBody removesCount
  repeat' split
  all_goals try dsimp only
  repeat' split
  all_goals simp [Ev.isRemove]

/-- The recovery block never attempts the temp-file removal. -/
theorem recovery_removes (env : BridgeEnv) (msg : String) :
    removesCount (recovery env msg) = 0 := by
  unfold recovery removesCount
  repeat' split
  all_goals try dsimp only
  repeat' split
  all_goals simp [Ev.isRemove]

/-- The recovery block never emits a `picked` acknowledgement. -/
theorem recovery_no_picked (env : BridgeEnv) (msg jid m : String) :
    Ev.ackReq jid "picked" m ∉ recovery env msg := by
  unfold recovery
  repeat' split
  all_goals try dsimp only
  repeat' split
  all_goals simp_all

/-- Any `error` acknowledgement of the recovery block is addressed to
the trimmed `jobId` of the first job of the freshly re-polled list and
carries the message truncated to 220 characters. -/
theorem recovery_ack_char (env : BridgeEnv) (msg jid m : String)
    (h : Ev.ackReq jid "error" m ∈ recovery env msg) :
    m = pyTake msg 220
    ∧ ∃ p, httpJsonResult env.list2 = .ok p
        ∧ jid = pyStrip (pyStr (((queuedJobs p).headD Json.null).getD "jobId" (Json.str "")))
        ∧ jid ≠ "" := by
  unfold recovery at h
  split at h
  · simp_all
  · rename_i data hdata
    split at h
    · simp_all
    · rename_i job rest hjobs
      split at h
      · simp_all
      · rename_i vId hv
        have hvid : vId = job.getD "jobId" (Json.str "") := by
          unfold dictGet at hv
          split at hv
          · exact (Except.ok.inj hv).symm
          · cases hv
        dsimp only at h
        by_cases hje : pyStrip (pyStr vId) = ""
        · rw [if_pos hje] at h
          simp_all
        · rw [if_neg hje] at h
          cases hae : env.ackError <;> rw [hae] at h <;>
            · simp only [List.mem_cons, List.not_mem_nil, or_false] at h
              rcases h with h | h
              · exact absurd h (by simp)
              · simp only [Ev.ackReq.injEq] at h
                obtain ⟨h1, _, h3⟩ := h
                refine ⟨h3, data, hdata, ?_, ?_⟩
                · rw [h1, hjobs]
                  simp [hvid]
                · rw [h1]; exact hje

/-- `removesCount` is additive over concatenation. -/
theorem removes_append (l1 l2 : List Ev) :
    removesCount (l1 ++ l2) = removesCount l1 + removesCount l2 := by
  simp [removesCount, List.filter_append]

/-- `message[:220]` has at most 220 characters. -/
theorem pyTake_le (s : String) (n : Nat) : (pyTake s n).length ≤ n := by
  unfold pyTake
  show (s.toList.take n).length ≤ n
  rw [List.length_take]
  exact min_le_left _ _

/-- Shape of a run whose body ended in the no-jobs early exit. -/
theorem execute_noJobs (env : BridgeEnv) (h : (importBody env).out = .noJobs) :
    execute env = ⟨"CANCELLED",
      (importBody env).events ++ cleanupEvents (importBody env) env
        ++ [Ev.outcome "CANCELLED"],
      (importBody env).tempCreated, (importBody env).tempAssigned⟩ := by
  unfold execute
  dsimp only
  rw [h]

/-- Shape of a fully successful run. -/
theorem execute_ok (env : BridgeEnv) (jid : String) (n : Nat)
    (h : (importBody env).out = .ok jid n) :
    execute env = ⟨"FINISHED",
      (importBody env).events ++ cleanupEvents (importBody env) env
        ++ [Ev.outcome "FINISHED"],
      (importBody env).tempCreated, (importBody env).tempAssigned⟩ := by
  unfold execute
  dsimp only
  rw [h]

/-- Shape of a run whose body raised: recovery, error report, cleanup. -/
theorem execute_failed (env : BridgeEnv) (msg : String)
    (h : (importBody env).out = .failed msg) :
    execute env = ⟨"CANCELLED",
      (importBody env).events ++ recovery env msg ++ [Ev.reportError msg]
        ++ cleanupEvents (importBody env) env ++ [Ev.outcome "CANCELLED"],
      (importBody env).tempCreated, (importBody env).tempAssigned⟩ := by
  unfold execute
  dsimp only
  rw [h]

/-- The recovery block behaves the same whatever the outcome of its own
`error` acknowledgement (the `try/except: pass` swallows it). -/
theorem recovery_withAckError (env : BridgeEnv) (r : Except String Unit) (msg : String) :
    recovery (withAckError env r) msg = recovery env msg := by
  unfold recovery withAckError
  dsimp only
  rcases h2 : httpJsonResult env.list2 with e | data <;> simp only [h2]
  rcases hq : queuedJobs data with _ | ⟨job, rest⟩ <;> simp only [hq]
  rcases hd : dictGet job "jobId" (Json.str "") with e | vId <;> simp only [hd]
  try dsimp only
  by_cases hj : pyStrip (pyStr vId) = ""
  · rw [if_pos hj, if_pos hj]
  · rw [if_neg hj, if_neg hj]
    cases r <;> cases env.ackError <;> rfl

/-- C1 (amended): every `error`-status acknowledgement a run attempts
is addressed to the trimmed `jobId` of the first job of the freshly
re-polled queued list — which need not be the originally selected job,
even when that job is still queued. -/
theorem import_error_ack_targets_repolled_head (env : BridgeEnv) (jid m : String)
    (h : Ev.ackReq jid "error" m ∈ (execute env).events) :
    ∃ p, httpJsonResult env.list2 = .ok p
      ∧ jid = pyStrip (pyStr (((queuedJobs p).headD Json.null).getD "jobId" (Json.str "")))
      ∧ jid ≠ "" := by
  rcases hout : (importBody env).out with _ | ⟨j0, n0⟩ | msg
  · rw [execute_noJobs env hout] at h
    dsimp only at h
    rcases List.mem_append.mp h with h | h
    · rcases List.mem_append.mp h with h | h
      · exact absurd h (body_no_error_ack env jid m)
      · unfold cleanupEvents at h
        split at h <;> simp_all
    · simp_all
  · rw [execute_ok env j0 n0 hout] at h
    dsimp only at h
    rcases List.mem_append.mp h with h | h
    · rcases List.mem_append.mp h with h | h
      · exact absurd h (body_no_error_ack env jid m)
      · unfold cleanupEvents at h
        split at h <;> simp_all
    · simp_all
  · rw [execute_failed env msg hout] at h
    dsimp only at h
    rcases List.mem_append.mp h with h | h
    · rcases List.mem_append.mp h with h | h
      · rcases List.mem_append.mp h with h | h
        · rcases List.mem_append.mp h with h | h
          · exact absurd h (body_no_error_ack env jid m)
          · exact (recovery_ack_char env msg jid m h).2
        · simp_all
      · unfold cleanupEvents at h
        split at h <;> simp_all
    · simp_all

/-- Witness for C1 (amended) at the concrete re-poll run. -/
theorem import_error_ack_targets_repolled_head_witness :
    Ev.ackReq "J2" "error" "boom" ∈ (execute envRepoll).events
    ∧ ∃ p, httpJsonResult envRepoll.list2 = .ok p
        ∧ "J2" = pyStrip (pyStr (((queuedJobs p).headD Json.null).getD "jobId" (Json.str "")))
        ∧ "J2" ≠ "" :=
  ⟨by decide, import_error_ack_targets_repolled_head envRepoll "J2" "boom" (by decide)⟩

/-- Counterexample for C1: the import step fails after `J1` was picked;
the re-poll returns `J2` first with `J1` (trimmed id `"J1"`) still in
the queued list, and the error acknowledgement goes to `J2`, not `J1`. -/
theorem import_error_ack_original_job_cex :
    (execute envRepoll).events =
      [Ev.listReq, Ev.ackReq "J1" "picked" "Picked by Blender addon.",
        Ev.downloadReq "http://h/a.glb" ".glb", Ev.importReq,
        Ev.listReq, Ev.ackReq "J2" "error" "boom",
        Ev.reportError "boom", Ev.removeTemp true, Ev.outcome "CANCELLED"]
    ∧ (queuedJobs (Json.obj [("jobs", Json.arr [jobJ2, jobJ1])])).map
        (fun j => pyStrip (pyStr (j.getD "jobId" (Json.str "")))) = ["J2", "J1"]
    ∧ "J2" ≠ "J1" :=
  ⟨by decide, by decide, by decide⟩

/-- Counterexample for C2: when the write into the just-created temp
file raises, the temp file exists (`mkstemp` ran) but `temp_path` was
never assigned, so the `finally:` block never attempts its removal. -/
theorem temp_leak_on_write_failure_cex :
    (execute envLeak).tempCreated = true
    ∧ removesCount (execute envLeak).events = 0
    ∧ (execute envLeak).status = "CANCELLED" :=
  ⟨by decide, by decide, by decide⟩

/-- C2 (amended): on every run in which `_download_file` returned (so
`temp_path` was assigned), the temp file is removed exactly once, the
removal attempt happens before the run's outcome reaches the caller,
and a failure of the removal itself is swallowed: the outcome is the
same whatever `os.remove` does. -/
theorem temp_cleanup_after_download (env : BridgeEnv)
    (h : (execute env).tempAssigned = true) :
    removesCount (execute env).events = 1
    ∧ (∃ l, (execute env).events = l ++ [Ev.outcome (execute env).status]
        ∧ Ev.removeTemp env.deleteOk ∈ l)
    ∧ ∀ b, (execute (withDeleteOk env b)).status = (execute env).status := by
  have hsw : ∀ b, (execute (withDeleteOk env b)).status = (execute env).status := by
    intro b
    have hb2 : importBody (withDeleteOk env b) = importBody env := rfl
    rcases hout : (importBody env).out with _ | ⟨j0, n0⟩ | msg
    · rw [execute_noJobs env hout,
        execute_noJobs (withDeleteOk env b) (by rw [hb2]; exact hout)]
    · rw [execute_ok env j0 n0 hout,
        execute_ok (withDeleteOk env b) j0 n0 (by rw [hb2]; exact hout)]
    · rw [execute_failed env msg hout,
        execute_failed (withDeleteOk env b) msg (by rw [hb2]; exact hout)]
  refine ⟨?_, ?_, hsw⟩
  · rcases hout : (importBody env).out with _ | ⟨j0, n0⟩ | msg
    · rw [execute_noJobs env hout] at h ⊢
      dsimp only at h ⊢
      rw [show cleanupEvents (importBody env) env = [Ev.removeTemp env.deleteOk] from by
        simp [cleanupEvents, h]]
      rw [removes_append, removes_append, body_removes env]
      rfl
    · rw [execute_ok env j0 n0 hout] at h ⊢
      dsimp only at h ⊢
      rw [show cleanupEvents (importBody env) env = [Ev.removeTemp env.deleteOk] from by
        simp [cleanupEvents, h]]
      rw [removes_append, removes_append, body_removes env]
      rfl
    · rw [execute_failed env msg hout] at h ⊢
      dsimp only at h ⊢
      rw [show cleanupEvents (importBody env) env = [Ev.removeTemp env.deleteOk] from by
        simp [cleanupEvents, h]]
      rw [removes_append, removes_append, removes_append, removes_append,
        body_removes env, recovery_removes env msg]
      rfl
  · rcases hout : (importBody env).out with _ | ⟨j0, n0⟩ | msg
    · rw [execute_noJobs env hout] at h ⊢
      dsimp only at h ⊢
      rw [show cleanupEvents (importBody env) env = [Ev.removeTemp env.deleteOk] from by
        simp [cleanupEvents, h]]
      exact ⟨(importBody env).events ++ [Ev.removeTemp env.deleteOk], by simp, by simp⟩
    · rw [execute_ok env j0 n0 hout] at h ⊢
      dsimp only at h ⊢
      rw [show cleanupEvents (importBody env) env = [Ev.removeTemp env.deleteOk] from by
        simp [cleanupEvents, h]]
      exact ⟨(importBody env).events ++ [Ev.removeTemp env.deleteOk], by simp, by simp⟩
    · rw [execute_failed env msg hout] at h ⊢
      dsimp only at h ⊢
      rw [show cleanupEvents (importBody env) env = [Ev.removeTemp env.deleteOk] from by
        simp [cleanupEvents, h]]
      exact ⟨(importBody env).events ++ recovery env msg ++ [Ev.reportError msg]
        ++ [Ev.removeTemp env.deleteOk], by simp, by simp⟩

/-- Witness for C2 (amended) at the fully successful run. -/
theorem temp_cleanup_after_download_witness :
    (execute envHappy).tempAssigned = true
    ∧ removesCount (execute envHappy).events = 1
    ∧ (∃ l, (execute envHappy).events = l ++ [Ev.outcome (execute envHappy).status]
        ∧ Ev.removeTemp envHappy.deleteOk ∈ l)
    ∧ ∀ b, (execute (withDeleteOk envHappy b)).status = (execute envHappy).status :=
  ⟨by decide, temp_cleanup_after_download envHappy (by decide)⟩

/-- C4: when the try-body fails with message `msg` after a job was
picked, every `error` acknowledgement the run attempts carries
`msg[:220]` (at most 220 characters), the caller gets exactly the
original message reported with a `CANCELLED` outcome, and the whole run
is unchanged by the outcome of the acknowledgement attempt itself. -/
theorem error_recovery_truncates_and_preserves_message (env : BridgeEnv)
    (msg jid0 m0 : String)
    (hout : (importBody env).out = .failed msg)
    (hpicked : Ev.ackReq jid0 "picked" m0 ∈ (importBody env).events) :
    (execute env).status = "CANCELLED"
    ∧ Ev.reportError msg ∈ (execute env).events
    ∧ (∀ jid m, Ev.ackReq jid "error" m ∈ (execute env).events →
        m = pyTake msg 220 ∧ m.length ≤ 220)
    ∧ ∀ r, execute (withAckError env r) = execute env := by
  refine ⟨by rw [execute_failed env msg hout], ?_, fun jid m hm => ?_, fun r => ?_⟩
  · rw [execute_failed env msg hout]
    simp
  · rw [execute_failed env msg hout] at hm
    dsimp only at hm
    rcases List.mem_append.mp hm with hm | hm
    · rcases List.mem_append.mp hm with hm | hm
      · rcases List.mem_append.mp hm with hm | hm
        · rcases List.mem_append.mp hm with hm | hm
          · exact absurd hm (body_no_error_ack env jid m)
          · have := (recovery_ack_char env msg jid m hm).1
            exact ⟨this, by rw [this]; exact pyTake_le msg 220⟩
        · simp_all
      · unfold cleanupEvents at hm
        split at hm <;> simp_all
    · simp_all
  · have hb2 : importBody (withAckError env r) = importBody env := rfl
    rw [execute_failed env msg hout,
      execute_failed (withAckError env r) msg (by rw [hb2]; exact hout), hb2,
      recovery_withAckError env r msg,
      show cleanupEvents (importBody env) (withAckError env r)
          = cleanupEvents (importBody env) env from rfl]

/-- Witness for C4 at the concrete failing run. -/
theorem error_recovery_truncates_and_preserves_message_witness :
    (importBody envRepoll).out = .failed "boom"
    ∧ Ev.ackReq "J1" "picked" "Picked by Blender addon." ∈ (importBody envRepoll).events
    ∧ ((execute envRepoll).status = "CANCELLED"
        ∧ Ev.reportError "boom" ∈ (execute envRepoll).events
        ∧ (∀ jid m, Ev.ackReq jid "error" m ∈ (execute envRepoll).events →
            m = pyTake "boom" 220 ∧ m.length ≤ 220)
        ∧ ∀ r, execute (withAckError envRepoll r) = execute envRepoll) :=
  ⟨by decide, by decide,
    error_recovery_truncates_and_preserves_message envRepoll "boom" "J1"
      "Picked by Blender addon." (by decide) (by decide)⟩

/-- C5: with a non-empty job list, the runner takes the first job in
server order, and when its trimmed `jobId` or `downloadUrl` is empty
the body fails with the invalid-job error while its trace is still the
bare listing request — no acknowledgement precedes the failure, and no
`picked` acknowledgement is ever sent in the whole run. -/
theorem first_job_validated_before_ack (env : BridgeEnv) (data job : Json)
    (rest : List Json)
    (hresp : httpJsonResult env.list1 = .ok data)
    (hjobs : queuedJobs data = job :: rest)
    (hobj : job.isObj = true)
    (hinv : pyStrip (pyStr (job.getD "jobId" (Json.str ""))) = ""
          ∨ pyStrip (pyStr (job.getD "downloadUrl" (Json.str ""))) = "") :
    (importBody env).out = .failed "Invalid job payload: jobId/downloadUrl is missing."
    ∧ (importBody env).events = [Ev.listReq]
    ∧ ∀ jid m, Ev.ackReq jid "picked" m ∉ (execute env).events := by
  have hbody : importBody env =
      ⟨.failed "Invalid job payload: jobId/downloadUrl is missing.",
        [Ev.listReq], false, false⟩ := by
    unfold importBody
    rw [hresp]
    simp only [hjobs]
    cases job with
    | obj f =>
      simp only [dictGet]
      try dsimp only
      rw [if_pos hinv]
    | null => simp [Json.isObj] at hobj
    | bool b => simp [Json.isObj] at hobj
    | num n => simp [Json.isObj] at hobj
    | str s2 => simp [Json.isObj] at hobj
    | arr xs => simp [Json.isObj] at hobj
  refine ⟨by rw [hbody], by rw [hbody], fun jid m hm => ?_⟩
  rw [execute_failed env "Invalid job payload: jobId/downloadUrl is missing."
    (by rw [hbody])] at hm
  dsimp only at hm
  rcases List.mem_append.mp hm with hm | hm
  · rcases List.mem_append.mp hm with hm | hm
    · rcases List.mem_append.mp hm with hm | hm
      · rcases List.mem_append.mp hm with hm | hm
        · rw [hbody] at hm
          simp_all
        · exact absurd hm (recovery_no_picked env _ jid m)
      · simp_all
    · unfold cleanupEvents at hm
      split at hm <;> simp_all
  · simp_all

/-- Witness for C5: a job with a `jobId` but no `downloadUrl`. -/
theorem first_job_validated_before_ack_witness :
    httpJsonResult envInvalid.list1 =
      .ok (Json.obj [("jobs", Json.arr [Json.obj [("jobId", Json.str "J3")]])])
    ∧ ((importBody envInvalid).out =
        .failed "Invalid job payload: jobId/downloadUrl is missing."
      ∧ (importBody envInvalid).events = [Ev.listReq]
      ∧ ∀ jid m, Ev.ackReq jid "picked" m ∉ (execute envInvalid).events) :=
  ⟨rfl,
    first_job_validated_before_ack envInvalid
      (Json.obj [("jobs", Json.arr [Json.obj [("jobId", Json.str "J3")]])])
      (Json.obj [("jobId", Json.str "J3")]) [] rfl rfl (by decide) (by decide)⟩

end Store3D
